import Mathlib

/-!
# synth: format translation and the ALSA playback handle

A shallow embedding of `main.cpp`.  The native sound library is an external
collaborator: it is modelled as a deterministic transition system over an
arbitrary device state `σ`, and every native call the program makes is
appended to a trace.  C++ exceptions are the `error` results of `Except`.
-/

namespace Synth

/-! ## Data model (main.cpp lines 10-28) -/

/-- Sign of a sample: `enum class PCMSign`. -/
inductive PCMSign where
  | SIGNED
  | UNSIGNED
  deriving DecidableEq, Repr

/-- Bit depth of a sample: `enum PCMSampleSize`. -/
inductive PCMSampleSize where
  | SS_LOW
  | SS_MEDIUM
  | SS_HIGH
  deriving DecidableEq, Repr

/-- Enumerator values `SS_LOW = 8, SS_MEDIUM = 16, SS_HIGH = 24`. -/
def PCMSampleSize.val : PCMSampleSize → Nat
  | .SS_LOW => 8
  | .SS_MEDIUM => 16
  | .SS_HIGH => 24

/-- Channel layout: `enum PCMChannelFormat`. -/
inductive PCMChannelFormat where
  | MONO
  | STEREO
  deriving DecidableEq, Repr

/-- Enumerator values `MONO = 1, STEREO = 2`. -/
def PCMChannelFormat.val : PCMChannelFormat → Nat
  | .MONO => 1
  | .STEREO => 2

/-- Sample-rate presets: `enum PCMSampleRate`. -/
inductive PCMSampleRate where
  | SR_LOW
  | SR_MEDIUM
  | SR_HIGH
  deriving DecidableEq, Repr

/-- Enumerator values `SR_LOW = 11025, SR_MEDIUM = 44100, SR_HIGH = 96000`. -/
def PCMSampleRate.val : PCMSampleRate → Nat
  | .SR_LOW => 11025
  | .SR_MEDIUM => 44100
  | .SR_HIGH => 96000

/-- The format descriptor `struct PCMFormat`. -/
structure PCMFormat where
  sign : PCMSign
  sampleSize : PCMSampleSize
  channelFormat : PCMChannelFormat
  sampleRate : PCMSampleRate
  deriving DecidableEq, Repr

/-- The sample buffer `struct PCMData`.  `frames` is a `uint32_t`; `pcm_data`
is the storage the raw pointer refers to, one entry per byte, `none` for a
byte that was allocated and not yet written. -/
structure PCMData where
  format : PCMFormat
  frames : Nat
  pcm_data : List (Option Nat)
  deriving DecidableEq, Repr

/-! ## Machine integers -/

/-- Conversion of an integer to `int` (32 bits, two's complement). -/
def toInt32 (x : Int) : Int :=
  (x + 2 ^ 31) % 2 ^ 32 - 2 ^ 31

/-- Conversion of an integer to `unsigned int` / `uint32_t`. -/
def toUInt32 (x : Int) : Nat :=
  (x % 2 ^ 32).toNat

/-! ## The native library (`<alsa/asoundlib.h>`) -/

/-- Identity of a native device handle, the value of a `snd_pcm_t*`. -/
abbrev snd_pcm_t := Nat

/-- Native stream direction. -/
inductive snd_pcm_stream_t where
  | SND_PCM_STREAM_PLAYBACK
  | SND_PCM_STREAM_CAPTURE
  deriving DecidableEq, Repr

/-- Native access mode. -/
inductive snd_pcm_access_t where
  | SND_PCM_ACCESS_MMAP_INTERLEAVED
  | SND_PCM_ACCESS_MMAP_NONINTERLEAVED
  | SND_PCM_ACCESS_MMAP_COMPLEX
  | SND_PCM_ACCESS_RW_INTERLEAVED
  | SND_PCM_ACCESS_RW_NONINTERLEAVED
  deriving DecidableEq, Repr

/-- Native sample-format codes: the ones the translator can produce and the
16- and 24-bit little-endian codes it never produces. -/
inductive snd_pcm_format_t where
  | SND_PCM_FORMAT_UNKNOWN
  | SND_PCM_FORMAT_S8
  | SND_PCM_FORMAT_U8
  | SND_PCM_FORMAT_S16_LE
  | SND_PCM_FORMAT_U16_LE
  | SND_PCM_FORMAT_S24_LE
  | SND_PCM_FORMAT_U24_LE
  deriving DecidableEq, Repr

/-- One invocation of a native primitive, with the arguments it was given. -/
inductive NativeCall where
  | snd_pcm_open (name : String) (stream : snd_pcm_stream_t) (mode : Int)
  | snd_pcm_set_params (pcm : snd_pcm_t) (format : snd_pcm_format_t)
      (access : snd_pcm_access_t) (channels : Nat) (rate : Nat)
      (soft_resample : Int) (latency : Nat)
  | snd_pcm_writei (pcm : snd_pcm_t) (buffer : List (Option Nat)) (size : Nat)
  | snd_pcm_recover (pcm : snd_pcm_t) (err : Int) (silent : Int)
  | snd_strerror (errnum : Int)
  | snd_pcm_close (pcm : snd_pcm_t)
  deriving DecidableEq, Repr

/-- The native library as a transition system over a device state `σ`:
`respond` gives the integer a primitive returns and the state it leaves,
`opened` is the handle `snd_pcm_open` stored through its out-parameter, and
`strerror` is the error-string table. -/
structure ALSA (σ : Type) where
  respond : σ → NativeCall → Int × σ
  opened : σ → snd_pcm_t
  strerror : Int → String

/-- Device state together with the trace of native calls made so far. -/
structure World (σ : Type) where
  dev : σ
  trace : List NativeCall

/-- Invoke a native primitive: record the call, return its integer result. -/
def ALSA.call {σ : Type} (A : ALSA σ) (c : NativeCall) (w : World σ) : Int × World σ :=
  ((A.respond w.dev c).1, ⟨(A.respond w.dev c).2, w.trace ++ [c]⟩)

/-- Invoke `snd_strerror`: record the call, return the message. -/
def ALSA.snd_strerror {σ : Type} (A : ALSA σ) (errnum : Int) (w : World σ) : String × World σ :=
  (A.strerror errnum, (A.call (.snd_strerror errnum) w).2)

/-! ## Exceptions (main.cpp lines 36-55, 98-126) -/

/-- The three exception classes, each carrying its `what()` message. -/
inductive PCMException where
  | PCMOpenException (arg : String)
  | PCMWriteException (arg : String)
  | PCMFormatException (arg : String)
  deriving DecidableEq, Repr

/-! ## ALSAInterop (main.cpp lines 194-214) -/

/-- Translation `ALSAInterop::GetALSAFormat`. -/
def ALSAInterop.GetALSAFormat (format : PCMFormat) : snd_pcm_format_t :=
  let result := snd_pcm_format_t.SND_PCM_FORMAT_UNKNOWN
  if format.sign = PCMSign.UNSIGNED then
    if format.sampleSize = PCMSampleSize.SS_LOW then
      snd_pcm_format_t.SND_PCM_FORMAT_U8
    else result
  else
    if format.sampleSize = PCMSampleSize.SS_LOW then
      snd_pcm_format_t.SND_PCM_FORMAT_S8
    else result

/-! ## ALSAPCMHandle (main.cpp lines 57-68, 128-192) -/

/-- The playback handle `class ALSAPCMHandle`. -/
structure ALSAPCMHandle where
  native_handle : snd_pcm_t
  deriving DecidableEq, Repr

/-- Constructor `ALSAPCMHandle::ALSAPCMHandle()`. -/
def ALSAPCMHandle.construct {σ : Type} (A : ALSA σ) (w : World σ) :
    Except PCMException ALSAPCMHandle × World σ :=
  let r := A.call (.snd_pcm_open "default" .SND_PCM_STREAM_PLAYBACK 0) w
  let err := r.1
  if err < 0 then
    (.error (.PCMOpenException "Playback open error"), r.2)
  else
    (.ok ⟨A.opened r.2.dev⟩, r.2)

/-- The C string `s.c_str()` as the native side reads it: the characters of
`s` before its first NUL. -/
def c_str (s : String) : String :=
  ⟨s.data.takeWhile (fun c => c != Char.ofNat 0)⟩

/-- Constructor `ALSAPCMHandle::ALSAPCMHandle(std::string deviceName)`. -/
def ALSAPCMHandle.construct_deviceName {σ : Type} (A : ALSA σ) (deviceName : String)
    (w : World σ) : Except PCMException ALSAPCMHandle × World σ :=
  let r := A.call (.snd_pcm_open (c_str deviceName) .SND_PCM_STREAM_PLAYBACK 0) w
  let err := r.1
  if err < 0 then
    (.error (.PCMOpenException "Playback open error"), r.2)
  else
    (.ok ⟨A.opened r.2.dev⟩, r.2)

/-- Destructor `ALSAPCMHandle::~ALSAPCMHandle()`. -/
def ALSAPCMHandle.destructor {σ : Type} (A : ALSA σ) (self : ALSAPCMHandle) (w : World σ) :
    World σ :=
  (A.call (.snd_pcm_close self.native_handle) w).2

/-- Method `ALSAPCMHandle::SetParams`. -/
def ALSAPCMHandle.SetParams {σ : Type} (A : ALSA σ) (self : ALSAPCMHandle)
    (format : PCMFormat) (w : World σ) : Except PCMException Unit × World σ :=
  let r := A.call (.snd_pcm_set_params self.native_handle
    (ALSAInterop.GetALSAFormat format) .SND_PCM_ACCESS_RW_INTERLEAVED
    format.channelFormat.val format.sampleRate.val 1 500000) w
  let err := r.1
  if err < 0 then
    let m := A.snd_strerror err r.2
    (.error (.PCMFormatException m.1), m.2)
  else
    (.ok (), r.2)

/-- The third argument of `snd_pcm_writei` in `Writei`:
`data.frames * (data.format.sampleSize * data.format.channelFormat)`, an
`unsigned int` product. -/
def ALSAPCMHandle.Writei_size (data : PCMData) : Nat :=
  (data.frames * (data.format.sampleSize.val * data.format.channelFormat.val)) % 2 ^ 32

/-- Method `ALSAPCMHandle::Writei`.  The native write returns a `long` that
is stored in the `int err`; `err < data.frames` compares as `unsigned`. -/
def ALSAPCMHandle.Writei {σ : Type} (A : ALSA σ) (self : ALSAPCMHandle)
    (data : PCMData) (w : World σ) : Except PCMException Unit × World σ :=
  let r := A.call (.snd_pcm_writei self.native_handle data.pcm_data
    (ALSAPCMHandle.Writei_size data)) w
  let err := toInt32 r.1
  if err < 0 then
    let r2 := A.call (.snd_pcm_recover self.native_handle err 1) r.2
    let err := r2.1
    if err < 0 then
      let m := A.snd_strerror err r2.2
      (.error (.PCMWriteException m.1), m.2)
    else
      (.ok (), r2.2)
  else if err > 0 ∧ toUInt32 err < data.frames then
    (.error (.PCMWriteException "Did not write all frames"), r.2)
  else
    (.ok (), r.2)

/-! ## main (main.cpp lines 70-96) -/

/-- The size expression `data.frames * format.sampleSize` of main, an
`unsigned int` product, used for the allocation and as the loop bound. -/
def main_size (frames : Nat) (format : PCMFormat) : Nat :=
  (frames * format.sampleSize.val) % 2 ^ 32

/-- The fill loop of main from index `i`:
`for (; i < bound; i++) pcm_data[i] = random() & 0xff;`
where `random i` is the value of the call to `random()` made at index `i`. -/
def main_fill (random : Nat → Nat) (bound : Nat) (i : Nat) (pcm_data : List (Option Nat)) :
    List (Option Nat) :=
  if i < bound then
    main_fill random bound (i + 1) (pcm_data.set i (some (random i % 256)))
  else pcm_data
termination_by bound - i

/-- How a run of main ends: `return` with a status, or an exception that
leaves main with no handler and terminates the process. -/
inductive MainResult where
  | returned (status : Int)
  | terminated (e : PCMException)
  deriving DecidableEq, Repr

/-- What happens to the local `handle` when an exception leaves main: main
has no handler, so `std::terminate` is called, and C++ leaves it
implementation-defined whether the stack is unwound (and the destructor of
`handle` run) before that call.  The choice is the parameter `unwinds`. -/
def main_uncaught {σ : Type} (A : ALSA σ) (unwinds : Bool) (handle : ALSAPCMHandle)
    (w : World σ) : World σ :=
  if unwinds then handle.destructor A w else w

/-- The format main builds (lines 73-78): unsigned 8-bit mono at 11025 Hz. -/
def main_format : PCMFormat :=
  ⟨PCMSign.UNSIGNED, PCMSampleSize.SS_LOW, PCMChannelFormat.MONO, PCMSampleRate.SR_LOW⟩

/-- The buffer main builds (lines 82-91): 22050 frames, storage of
`data.frames * format.sampleSize` bytes, every index below that bound set by
the fill loop. -/
def main_data (random : Nat → Nat) : PCMData :=
  let format := main_format
  let frames := 22050
  let storage := List.replicate (main_size frames format) none
  ⟨format, frames, main_fill random (main_size frames format) 0 storage⟩

/-- The statements of main in the scope of the constructed `handle`
(lines 73-95), up to and including the destruction of `handle`. -/
def main_body {σ : Type} (A : ALSA σ) (unwinds : Bool) (random : Nat → Nat)
    (handle : ALSAPCMHandle) (w1 : World σ) : MainResult × World σ :=
  match handle.SetParams A main_format w1 with
  | (.error e, w2) => (.terminated e, main_uncaught A unwinds handle w2)
  | (.ok _, w2) =>
    match handle.Writei A (main_data random) w2 with
    | (.error e, w3) => (.terminated e, main_uncaught A unwinds handle w3)
    | (.ok _, w3) => (.returned 0, handle.destructor A w3)

/-- The program `main`, run from device state `s` with an empty trace.  When
the constructor throws there is no `handle` and no destructor runs. -/
def main {σ : Type} (A : ALSA σ) (unwinds : Bool) (random : Nat → Nat) (s : σ) :
    MainResult × World σ :=
  match ALSAPCMHandle.construct A ⟨s, []⟩ with
  | (.error e, w1) => (.terminated e, w1)
  | (.ok handle, w1) => main_body A unwinds random handle w1

/-- The native open call of main. -/
def main_open_call : NativeCall :=
  .snd_pcm_open "default" .SND_PCM_STREAM_PLAYBACK 0

/-- The handle main holds after the native open, run from device state `s`. -/
def main_handle {σ : Type} (A : ALSA σ) (s : σ) : ALSAPCMHandle :=
  ⟨A.opened (A.respond s main_open_call).2⟩

/-- The device state and trace main is in after the native open, run from
device state `s`. -/
def main_world {σ : Type} (A : ALSA σ) (s : σ) : World σ :=
  ⟨(A.respond s main_open_call).2, [main_open_call]⟩

/-- The native parameter-set call `SetParams` makes for `format`. -/
def SetParams_call (self : ALSAPCMHandle) (format : PCMFormat) : NativeCall :=
  .snd_pcm_set_params self.native_handle (ALSAInterop.GetALSAFormat format)
    .SND_PCM_ACCESS_RW_INTERLEAVED format.channelFormat.val format.sampleRate.val 1 500000

/-! ## Size of the native read -/

/-- Bytes one sample occupies in storage for a native format code; the
unknown format has no size. -/
def snd_pcm_format_size : snd_pcm_format_t → Option Nat
  | .SND_PCM_FORMAT_UNKNOWN => none
  | .SND_PCM_FORMAT_S8 => some 1
  | .SND_PCM_FORMAT_U8 => some 1
  | .SND_PCM_FORMAT_S16_LE => some 2
  | .SND_PCM_FORMAT_U16_LE => some 2
  | .SND_PCM_FORMAT_S24_LE => some 4
  | .SND_PCM_FORMAT_U24_LE => some 4

/-- Bytes an interleaved write of `frames` frames reads from the buffer: a
frame is one sample per channel. -/
def snd_pcm_frames_to_bytes (format : snd_pcm_format_t) (channels frames : Nat) :
    Option Nat :=
  (snd_pcm_format_size format).map (fun sample => frames * (sample * channels))

/-- Bytes `Writei` asks the native write to read for `data`, once the handle
is configured with `data.format` by `SetParams`. -/
def Writei_bytes (data : PCMData) : Option Nat :=
  snd_pcm_frames_to_bytes (ALSAInterop.GetALSAFormat data.format)
    data.format.channelFormat.val (ALSAPCMHandle.Writei_size data)

/-! ## Reading a trace -/

/-- The native write call `Writei` makes for `data` on handle `self`. -/
def Writei_call (self : ALSAPCMHandle) (data : PCMData) : NativeCall :=
  .snd_pcm_writei self.native_handle data.pcm_data (ALSAPCMHandle.Writei_size data)

/-- The native recovery call `Writei` makes after the write returned `r`. -/
def Writei_recover_call (self : ALSAPCMHandle) (r : Int) : NativeCall :=
  .snd_pcm_recover self.native_handle (toInt32 r) 1

/-- Is the call an interleaved write? -/
def NativeCall.isWritei : NativeCall → Bool
  | .snd_pcm_writei _ _ _ => true
  | _ => false

/-- Is the call a recovery? -/
def NativeCall.isRecover : NativeCall → Bool
  | .snd_pcm_recover _ _ _ => true
  | _ => false

/-- Is the call a close? -/
def NativeCall.isClose : NativeCall → Bool
  | .snd_pcm_close _ => true
  | _ => false

/-- The calls a step appended to the trace `before`. -/
def callsSince (before after : List NativeCall) : List NativeCall :=
  after.drop before.length

/-! ## Concrete native libraries used to run the program -/

/-- The error-string table of the example libraries. -/
def exampleStrerror (errnum : Int) : String :=
  if errnum = -22 then "Invalid argument"
  else if errnum = -32 then "Broken pipe"
  else "Unknown error"

/-- A native library that answers the calls it receives, in order, with the
integers of a script (and with 0 once the script is used up); the device it
opens is handle 1. -/
def scripted : ALSA (List Int) where
  respond := fun s _ => (s.headD 0, s.tail)
  opened := fun _ => 1
  strerror := exampleStrerror

/-- A stateless native library that rejects the unknown sample format with
`-22` and accepts every other call with 0. -/
def rejectUnknown : ALSA Unit where
  respond := fun _ c =>
    match c with
    | .snd_pcm_set_params _ .SND_PCM_FORMAT_UNKNOWN _ _ _ _ _ => (-22, ())
    | _ => (0, ())
  opened := fun _ => 1
  strerror := exampleStrerror

/-- A four-frame unsigned 8-bit mono buffer, allocated as main allocates
(frames times bit depth bytes) and filled with zero samples. -/
def exampleData : PCMData :=
  ⟨⟨.UNSIGNED, .SS_LOW, .MONO, .SR_LOW⟩, 4, List.replicate 32 (some 0)⟩

/-- A buffer of 2^28 unsigned 8-bit mono frames, allocated as main allocates
(2^31 bytes); `Writei` requests 2^31 frames for it. -/
def longData : PCMData :=
  ⟨⟨.UNSIGNED, .SS_LOW, .MONO, .SR_LOW⟩, 268435456, List.replicate 2147483648 (some 0)⟩

/-- A device name with an embedded NUL: the characters a, b, NUL, c, d. -/
def nameWithNul : String :=
  ⟨[Char.ofNat 97, Char.ofNat 98, Char.ofNat 0, Char.ofNat 99, Char.ofNat 100]⟩

/-- A native library whose open succeeds and stores handle 7. -/
def opensSeven : ALSA Unit where
  respond := fun _ _ => (0, ())
  opened := fun _ => 7
  strerror := exampleStrerror

/-! ## Auxiliary facts -/

theorem callsSince_append (t l : List NativeCall) : callsSince t (t ++ l) = l := by
  simp [callsSince]

theorem toInt32_of_range (x : Int) (h1 : -2 ^ 31 ≤ x) (h2 : x < 2 ^ 31) : toInt32 x = x := by
  unfold toInt32
  omega

theorem toInt32_zero : toInt32 0 = 0 := by decide

theorem toUInt32_of_range (x : Int) (h1 : 0 ≤ x) (h2 : x < 2 ^ 32) : toUInt32 x = x.toNat := by
  unfold toUInt32
  rw [Int.emod_eq_of_lt h1 h2]

/-! ## The format translator -/

/-- C1: `GetALSAFormat` is total and depends on sign and bit depth only: it
yields U8 for unsigned 8-bit, S8 for signed 8-bit, UNKNOWN for 16- and 24-bit
under either sign, and the same code whatever the channel count and sample
rate are. -/
theorem GetALSAFormat_table (c : PCMChannelFormat) (r : PCMSampleRate) :
    ALSAInterop.GetALSAFormat ⟨.UNSIGNED, .SS_LOW, c, r⟩ = .SND_PCM_FORMAT_U8 ∧
    ALSAInterop.GetALSAFormat ⟨.SIGNED, .SS_LOW, c, r⟩ = .SND_PCM_FORMAT_S8 ∧
    (∀ s : PCMSign,
      ALSAInterop.GetALSAFormat ⟨s, .SS_MEDIUM, c, r⟩ = .SND_PCM_FORMAT_UNKNOWN ∧
      ALSAInterop.GetALSAFormat ⟨s, .SS_HIGH, c, r⟩ = .SND_PCM_FORMAT_UNKNOWN) ∧
    (∀ (s : PCMSign) (b : PCMSampleSize) (c2 : PCMChannelFormat) (r2 : PCMSampleRate),
      ALSAInterop.GetALSAFormat ⟨s, b, c, r⟩ = ALSAInterop.GetALSAFormat ⟨s, b, c2, r2⟩) := by
  refine ⟨rfl, rfl, ?_, ?_⟩
  · intro s
    cases s <;> exact ⟨rfl, rfl⟩
  · intro s b c2 r2
    cases s <;> cases b <;> rfl

/-! ## Opening the handle -/

/-- C7, counterexample: given a device name with an embedded NUL (a, b,
NUL, c, d), the one-argument constructor asks the native open for "ab", which
is not the name it was given. -/
theorem construct_deviceName_truncates_at_nul :
    (ALSAPCMHandle.construct_deviceName opensSeven nameWithNul ⟨(), []⟩).2.trace =
      [.snd_pcm_open "ab" .SND_PCM_STREAM_PLAYBACK 0] ∧
    "ab" ≠ nameWithNul ∧
    (ALSAPCMHandle.construct_deviceName opensSeven nameWithNul ⟨(), []⟩).2.trace ≠
      [.snd_pcm_open nameWithNul .SND_PCM_STREAM_PLAYBACK 0] := by
  refine ⟨rfl, by decide, ?_⟩
  have h : (ALSAPCMHandle.construct_deviceName opensSeven nameWithNul ⟨(), []⟩).2.trace =
      [.snd_pcm_open "ab" .SND_PCM_STREAM_PLAYBACK 0] := rfl
  rw [h]
  decide

/-- C7, amended: each constructor makes exactly one native call, an open of
the playback stream with mode 0, on the device "default" (no argument) or on
the given name read as a C string, that is up to its first NUL (the whole
name when it has no NUL); it leaves the device in the state the native open
left; it throws a PCMOpenException, and nothing else, exactly when the native
open returns a negative code, and otherwise yields the handle that the
native open stored. -/
theorem construct_open {σ : Type} (A : ALSA σ) (w : World σ) (deviceName : String) :
    ((ALSAPCMHandle.construct A w).2.trace =
        w.trace ++ [.snd_pcm_open "default" .SND_PCM_STREAM_PLAYBACK 0] ∧
      (ALSAPCMHandle.construct A w).2.dev =
        (A.respond w.dev (.snd_pcm_open "default" .SND_PCM_STREAM_PLAYBACK 0)).2 ∧
      ((∃ arg, (ALSAPCMHandle.construct A w).1 = .error (.PCMOpenException arg)) ↔
        (A.respond w.dev (.snd_pcm_open "default" .SND_PCM_STREAM_PLAYBACK 0)).1 < 0) ∧
      (∀ e, (ALSAPCMHandle.construct A w).1 = .error e →
        e = .PCMOpenException "Playback open error") ∧
      ((ALSAPCMHandle.construct A w).1 =
          .ok ⟨A.opened
            (A.respond w.dev (.snd_pcm_open "default" .SND_PCM_STREAM_PLAYBACK 0)).2⟩ ↔
        0 ≤ (A.respond w.dev (.snd_pcm_open "default" .SND_PCM_STREAM_PLAYBACK 0)).1)) ∧
    ((ALSAPCMHandle.construct_deviceName A deviceName w).2.trace =
        w.trace ++ [.snd_pcm_open (c_str deviceName) .SND_PCM_STREAM_PLAYBACK 0] ∧
      (ALSAPCMHandle.construct_deviceName A deviceName w).2.dev =
        (A.respond w.dev
          (.snd_pcm_open (c_str deviceName) .SND_PCM_STREAM_PLAYBACK 0)).2 ∧
      ((∃ arg, (ALSAPCMHandle.construct_deviceName A deviceName w).1 =
          .error (.PCMOpenException arg)) ↔
        (A.respond w.dev
          (.snd_pcm_open (c_str deviceName) .SND_PCM_STREAM_PLAYBACK 0)).1 < 0) ∧
      (∀ e, (ALSAPCMHandle.construct_deviceName A deviceName w).1 = .error e →
        e = .PCMOpenException "Playback open error") ∧
      ((ALSAPCMHandle.construct_deviceName A deviceName w).1 =
          .ok ⟨A.opened (A.respond w.dev
            (.snd_pcm_open (c_str deviceName) .SND_PCM_STREAM_PLAYBACK 0)).2⟩ ↔
        0 ≤ (A.respond w.dev
          (.snd_pcm_open (c_str deviceName) .SND_PCM_STREAM_PLAYBACK 0)).1)) ∧
    ((∀ c ∈ deviceName.data, c ≠ Char.ofNat 0) → c_str deviceName = deviceName) := by
  refine ⟨?_, ?_, ?_⟩
  · unfold ALSAPCMHandle.construct
    by_cases h : (A.respond w.dev (.snd_pcm_open "default" .SND_PCM_STREAM_PLAYBACK 0)).1 < 0
    · simp [ALSA.call, h]
    · simp [ALSA.call, h, not_lt.mp h]
  · unfold ALSAPCMHandle.construct_deviceName
    by_cases h : (A.respond w.dev
        (.snd_pcm_open (c_str deviceName) .SND_PCM_STREAM_PLAYBACK 0)).1 < 0
    · simp [ALSA.call, h]
    · simp [ALSA.call, h, not_lt.mp h]
  · intro hnul
    have htake : deviceName.data.takeWhile (fun c => c != Char.ofNat 0) = deviceName.data := by
      rw [List.takeWhile_eq_self_iff]
      intro c hc
      simpa using hnul c hc
    unfold c_str
    rw [htake]

/-- Witness for C7, amended: the name hw:0 has no NUL and is requested as
it is; on a library that stores handle 7 the constructor yields handle 7. -/
theorem construct_open_witness :
    c_str "hw:0" = "hw:0" ∧
    (ALSAPCMHandle.construct_deviceName opensSeven "hw:0" ⟨(), []⟩).1 = .ok ⟨7⟩ :=
  ⟨(construct_open opensSeven ⟨(), []⟩ "hw:0").2.2 (by decide),
    (construct_open opensSeven ⟨(), []⟩ "hw:0").2.1.2.2.2.2.mpr (by decide)⟩

/-! ## Configuring the handle -/

/-- C2: `SetParams` throws a PCMFormatException (with the native error
string) exactly when the native parameter-set call returns a negative code,
and returns normally otherwise; so for a 16- or 24-bit format, whenever the
native call rejects the unknown format, `SetParams` fails with a
PCMFormatException. -/
theorem SetParams_format_failure {σ : Type} (A : ALSA σ) (self : ALSAPCMHandle)
    (format : PCMFormat) (w : World σ) :
    ((∃ arg, (self.SetParams A format w).1 = .error (.PCMFormatException arg)) ↔
      (A.respond w.dev (.snd_pcm_set_params self.native_handle
        (ALSAInterop.GetALSAFormat format) .SND_PCM_ACCESS_RW_INTERLEAVED
        format.channelFormat.val format.sampleRate.val 1 500000)).1 < 0) ∧
    ((self.SetParams A format w).1 = .ok () ↔
      0 ≤ (A.respond w.dev (.snd_pcm_set_params self.native_handle
        (ALSAInterop.GetALSAFormat format) .SND_PCM_ACCESS_RW_INTERLEAVED
        format.channelFormat.val format.sampleRate.val 1 500000)).1) ∧
    ((∀ e, (self.SetParams A format w).1 = .error e →
      e = .PCMFormatException (A.strerror (A.respond w.dev (.snd_pcm_set_params
        self.native_handle (ALSAInterop.GetALSAFormat format)
        .SND_PCM_ACCESS_RW_INTERLEAVED format.channelFormat.val
        format.sampleRate.val 1 500000)).1)) ∧
    ((format.sampleSize = .SS_MEDIUM ∨ format.sampleSize = .SS_HIGH) →
      (∀ s pcm access channels rate soft_resample latency,
        (A.respond s (.snd_pcm_set_params pcm .SND_PCM_FORMAT_UNKNOWN access channels rate
          soft_resample latency)).1 < 0) →
      ∃ arg, (self.SetParams A format w).1 = .error (.PCMFormatException arg))) := by
  have key : ∀ x : Int, ((∃ arg, (if x < 0 then
        (Except.error (PCMException.PCMFormatException (A.strerror x)) :
          Except PCMException Unit)
        else Except.ok ()) = .error (.PCMFormatException arg)) ↔ x < 0) ∧
      ((if x < 0 then
        (Except.error (PCMException.PCMFormatException (A.strerror x)) :
          Except PCMException Unit)
        else Except.ok ()) = .ok () ↔ 0 ≤ x) ∧
      (∀ e, (if x < 0 then
        (Except.error (PCMException.PCMFormatException (A.strerror x)) :
          Except PCMException Unit)
        else Except.ok ()) = .error e → e = .PCMFormatException (A.strerror x)) := by
    intro x
    by_cases h : x < 0
    · simp [h]
    · simp [h, not_lt.mp h]
  have hres : (self.SetParams A format w).1 =
      if (A.respond w.dev (.snd_pcm_set_params self.native_handle
        (ALSAInterop.GetALSAFormat format) .SND_PCM_ACCESS_RW_INTERLEAVED
        format.channelFormat.val format.sampleRate.val 1 500000)).1 < 0 then
        .error (.PCMFormatException (A.strerror (A.respond w.dev (.snd_pcm_set_params
          self.native_handle (ALSAInterop.GetALSAFormat format)
          .SND_PCM_ACCESS_RW_INTERLEAVED format.channelFormat.val
          format.sampleRate.val 1 500000)).1))
      else .ok () := by
    unfold ALSAPCMHandle.SetParams
    simp only [ALSA.call, ALSA.snd_strerror]
    split_ifs <;> rfl
  rw [hres]
  refine ⟨(key _).1, (key _).2.1, (key _).2.2, ?_⟩
  intro hdepth hnative
  apply (key _).1.mpr
  have hfmt : ALSAInterop.GetALSAFormat format = .SND_PCM_FORMAT_UNKNOWN := by
    unfold ALSAInterop.GetALSAFormat
    rcases hdepth with h | h <;> simp [h]
  rw [hfmt]
  exact hnative _ _ _ _ _ _ _

/-- Witness for C2: a signed 16-bit stereo format on a library that rejects
the unknown format. -/
theorem SetParams_format_failure_witness :
    ∃ arg, ((⟨1⟩ : ALSAPCMHandle).SetParams rejectUnknown
      ⟨.SIGNED, .SS_MEDIUM, .STEREO, .SR_MEDIUM⟩ ⟨(), []⟩).1 =
        .error (.PCMFormatException arg) :=
  (SetParams_format_failure rejectUnknown ⟨1⟩ ⟨.SIGNED, .SS_MEDIUM, .STEREO, .SR_MEDIUM⟩
    ⟨(), []⟩).2.2.2 (Or.inl rfl)
    (fun _ _ _ _ _ _ _ => show (-22 : Int) < 0 by decide)

/-! ## Writing a buffer -/

/-- The result and the trace of `Writei`, by the codes the native write and
the native recovery return. -/
theorem Writei_unfold {σ : Type} (A : ALSA σ) (self : ALSAPCMHandle) (d : PCMData)
    (w : World σ) (r r2 : Int)
    (hr : (A.respond w.dev (Writei_call self d)).1 = r)
    (hr2 : (A.respond (A.respond w.dev (Writei_call self d)).2
      (Writei_recover_call self r)).1 = r2) :
    ((self.Writei A d w).1 =
      if toInt32 r < 0 then
        if r2 < 0 then .error (.PCMWriteException (A.strerror r2)) else .ok ()
      else if 0 < toInt32 r ∧ toUInt32 (toInt32 r) < d.frames then
        .error (.PCMWriteException "Did not write all frames")
      else .ok ()) ∧
    ((self.Writei A d w).2.trace =
      if toInt32 r < 0 then
        if r2 < 0 then
          w.trace ++ [Writei_call self d, Writei_recover_call self r, .snd_strerror r2]
        else w.trace ++ [Writei_call self d, Writei_recover_call self r]
      else w.trace ++ [Writei_call self d]) := by
  subst hr
  subst hr2
  unfold ALSAPCMHandle.Writei
  simp only [ALSA.call, ALSA.snd_strerror, Writei_call, Writei_recover_call, gt_iff_lt]
  split_ifs <;> simp

/-- C8: the frame count `Writei` hands to the native write is
`(frames × bit depth × channels) mod 2^32`, with bit depth 8, 16 or 24 and
channels 1 or 2; it is the exact product when that is below 2^32, and at
2^29 frames of 8-bit mono it wraps to a value below the frame count. -/
theorem Writei_requested_frames {σ : Type} (A : ALSA σ) (self : ALSAPCMHandle) (d : PCMData)
    (w : World σ) :
    (callsSince w.trace (self.Writei A d w).2.trace).head? =
      some (.snd_pcm_writei self.native_handle d.pcm_data
        ((d.frames * d.format.sampleSize.val * d.format.channelFormat.val) % 2 ^ 32)) ∧
    (d.format.sampleSize.val = 8 ∨ d.format.sampleSize.val = 16 ∨
      d.format.sampleSize.val = 24) ∧
    (d.format.channelFormat.val = 1 ∨ d.format.channelFormat.val = 2) ∧
    (d.frames * d.format.sampleSize.val * d.format.channelFormat.val < 2 ^ 32 →
      ALSAPCMHandle.Writei_size d =
        d.frames * d.format.sampleSize.val * d.format.channelFormat.val) ∧
    (∃ d0 : PCMData, d0.frames = 2 ^ 29 ∧ d0.format.sampleSize = .SS_LOW ∧
      d0.format.channelFormat = .MONO ∧ ALSAPCMHandle.Writei_size d0 < d0.frames) := by
  refine ⟨?_, ?_, ?_, ?_, ?_⟩
  · rw [(Writei_unfold A self d w _ _ rfl rfl).2]
    split_ifs <;>
      simp [callsSince, Writei_call, ALSAPCMHandle.Writei_size, Nat.mul_assoc]
  · cases d.format.sampleSize <;> simp [PCMSampleSize.val]
  · cases d.format.channelFormat <;> simp [PCMChannelFormat.val]
  · intro h
    unfold ALSAPCMHandle.Writei_size
    rw [← Nat.mul_assoc]
    exact Nat.mod_eq_of_lt h
  · exact ⟨⟨⟨.UNSIGNED, .SS_LOW, .MONO, .SR_LOW⟩, 2 ^ 29, []⟩, rfl, rfl, rfl, by decide⟩

/-- Witness for C8: four frames of 8-bit mono request 32 frames. -/
theorem Writei_requested_frames_witness :
    ALSAPCMHandle.Writei_size exampleData =
      exampleData.frames * exampleData.format.sampleSize.val *
        exampleData.format.channelFormat.val :=
  (Writei_requested_frames scripted ⟨1⟩ exampleData ⟨[], []⟩).2.2.2.1 (by decide)

/-- C9: when the native write returns a count `r` with `0 ≤ r < 2^31`,
`Writei` throws the "Did not write all frames" PCMWriteException if and only
if `0 < r < d.frames`; it returns normally when `r = 0` and whenever
`d.frames ≤ r`, also when `r` is below the frame count it requested. -/
theorem Writei_partial_write_threshold {σ : Type} (A : ALSA σ) (self : ALSAPCMHandle)
    (d : PCMData) (w : World σ) (r : Int)
    (hr : (A.respond w.dev (Writei_call self d)).1 = r)
    (h0 : 0 ≤ r) (hint : r < 2 ^ 31) :
    ((self.Writei A d w).1 = .error (.PCMWriteException "Did not write all frames") ↔
      (0 < r ∧ r < (d.frames : Int))) ∧
    ((self.Writei A d w).1 = .ok () ↔ ¬ (0 < r ∧ r < (d.frames : Int))) ∧
    (r = 0 → (self.Writei A d w).1 = .ok ()) ∧
    ((d.frames : Int) ≤ r → (self.Writei A d w).1 = .ok ()) := by
  have h32 : toInt32 r = r := toInt32_of_range r (by omega) hint
  have hu : toUInt32 r = r.toNat := toUInt32_of_range r h0 (by omega)
  have hnn : ¬ toInt32 r < 0 := by rw [h32]; omega
  have hthr : (r.toNat < d.frames) ↔ r < (d.frames : Int) := by omega
  rw [(Writei_unfold A self d w r _ hr rfl).1, if_neg hnn, h32, hu]
  by_cases hc : 0 < r ∧ r < (d.frames : Int)
  · have hc2 : 0 < r ∧ r.toNat < d.frames := ⟨hc.1, hthr.mpr hc.2⟩
    rw [if_pos hc2]
    refine ⟨⟨fun _ => hc, fun _ => rfl⟩, ⟨fun h => (by cases h), fun h => absurd hc h⟩, ?_, ?_⟩
    · intro h; omega
    · intro h; omega
  · have hc2 : ¬ (0 < r ∧ r.toNat < d.frames) := fun h => hc ⟨h.1, hthr.mp h.2⟩
    rw [if_neg hc2]
    exact ⟨⟨fun h => (by cases h), fun h => absurd h hc⟩, ⟨fun _ => hc, fun _ => rfl⟩,
      fun _ => rfl, fun _ => rfl⟩

/-- Witness for C9: of 4 declared frames (32 requested) the device reports 8
written, and `Writei` returns normally. -/
theorem Writei_partial_write_threshold_witness :
    ((⟨1⟩ : ALSAPCMHandle).Writei scripted exampleData ⟨[8], []⟩).1 = .ok () ∧
    (8 : Int) < (ALSAPCMHandle.Writei_size exampleData : Int) :=
  ⟨(Writei_partial_write_threshold scripted ⟨1⟩ exampleData ⟨[8], []⟩ 8 rfl
    (by decide) (by decide)).2.2.2 (by decide), by decide⟩

/-- C4, counterexample: for 2^28 frames of 8-bit mono `Writei` requests 2^31
frames; the native write returns 2^31, all of them written and not a negative
code, and `Writei` still invokes the native recovery, because the `int err`
holds -2^31. -/
theorem Writei_full_write_triggers_recovery :
    ALSAPCMHandle.Writei_size longData = 2147483648 ∧
    (scripted.respond [2147483648, 0] (Writei_call ⟨1⟩ longData)).1 = 2147483648 ∧
    ¬ (scripted.respond [2147483648, 0] (Writei_call ⟨1⟩ longData)).1 < 0 ∧
    callsSince [] ((⟨1⟩ : ALSAPCMHandle).Writei scripted longData
        ⟨[2147483648, 0], []⟩).2.trace =
      [Writei_call ⟨1⟩ longData, .snd_pcm_recover 1 (-2147483648) 1] ∧
    (callsSince [] ((⟨1⟩ : ALSAPCMHandle).Writei scripted longData
        ⟨[2147483648, 0], []⟩).2.trace).countP NativeCall.isRecover = 1 := by
  have htr : ((⟨1⟩ : ALSAPCMHandle).Writei scripted longData
      ⟨[2147483648, 0], []⟩).2.trace =
      [] ++ [Writei_call ⟨1⟩ longData, Writei_recover_call ⟨1⟩ 2147483648] := by
    rw [(Writei_unfold scripted ⟨1⟩ longData ⟨[2147483648, 0], []⟩ 2147483648 0 rfl rfl).2,
      if_pos (by decide), if_neg (by decide)]
  have hrec : Writei_recover_call ⟨1⟩ 2147483648 = .snd_pcm_recover 1 (-2147483648) 1 := by
    decide
  rw [htr, callsSince_append, hrec]
  exact ⟨by decide, rfl, by decide, rfl, rfl⟩

/-- C4, amended: every `Writei` call invokes the native write exactly once,
first, and the native recovery at most once: recovery is invoked if and only
if the write's return value, once stored in the `int err`, is negative (for a
return value within the `int` range: if and only if that value is negative);
when recovery returns a negative code `Writei` throws a PCMWriteException with
the native error string of that code; when recovery returns a non-negative
code `Writei` returns normally after exactly the write and the recovery. -/
theorem Writei_single_write_single_recovery {σ : Type} (A : ALSA σ) (self : ALSAPCMHandle)
    (d : PCMData) (w : World σ) (r r2 : Int)
    (hr : (A.respond w.dev (Writei_call self d)).1 = r)
    (hr2 : (A.respond (A.respond w.dev (Writei_call self d)).2
      (Writei_recover_call self r)).1 = r2) :
    (callsSince w.trace (self.Writei A d w).2.trace).countP NativeCall.isWritei = 1 ∧
    (callsSince w.trace (self.Writei A d w).2.trace).head? = some (Writei_call self d) ∧
    (callsSince w.trace (self.Writei A d w).2.trace).countP NativeCall.isRecover ≤ 1 ∧
    ((callsSince w.trace (self.Writei A d w).2.trace).countP NativeCall.isRecover = 1 ↔
      toInt32 r < 0) ∧
    (-2 ^ 31 ≤ r ∧ r < 2 ^ 31 →
      ((callsSince w.trace (self.Writei A d w).2.trace).countP NativeCall.isRecover = 1 ↔
        r < 0)) ∧
    (toInt32 r < 0 → r2 < 0 →
      (self.Writei A d w).1 = .error (.PCMWriteException (A.strerror r2))) ∧
    (toInt32 r < 0 → 0 ≤ r2 →
      (self.Writei A d w).1 = .ok () ∧
      callsSince w.trace (self.Writei A d w).2.trace =
        [Writei_call self d, Writei_recover_call self r]) := by
  obtain ⟨hres, htr⟩ := Writei_unfold A self d w r r2 hr hr2
  have hcount : ((callsSince w.trace (self.Writei A d w).2.trace).countP
      NativeCall.isRecover = 1 ↔ toInt32 r < 0) := by
    rw [htr]
    split_ifs with h1 h2 <;>
      simp [callsSince_append, Writei_call, Writei_recover_call, NativeCall.isRecover, h1]
  refine ⟨?_, ?_, ?_, hcount, ?_, ?_, ?_⟩
  · rw [htr]
    split_ifs <;>
      simp [callsSince_append, Writei_call, Writei_recover_call, NativeCall.isWritei]
  · rw [htr]
    split_ifs <;> simp [callsSince_append]
  · rw [htr]
    split_ifs <;>
      simp [callsSince_append, Writei_call, Writei_recover_call, NativeCall.isRecover]
  · intro hrange
    rw [hcount, toInt32_of_range r hrange.1 hrange.2]
  · intro h1 h2
    rw [hres, if_pos h1, if_pos h2]
  · intro h1 h2
    rw [hres, htr, if_pos h1, if_neg (not_lt.mpr h2), if_pos h1, if_neg (not_lt.mpr h2)]
    exact ⟨rfl, callsSince_append _ _⟩

/-- Witness for C4, amended: the write fails with -32 and so does the
recovery. -/
theorem Writei_single_write_single_recovery_witness :
    ((⟨1⟩ : ALSAPCMHandle).Writei scripted exampleData ⟨[-32, -32], []⟩).1 =
      .error (.PCMWriteException (scripted.strerror (-32))) :=
  (Writei_single_write_single_recovery scripted ⟨1⟩ exampleData ⟨[-32, -32], []⟩
    (-32) (-32) rfl rfl).2.2.2.2.2.1 (by decide) (by decide)

/-- C3, counterexample: of 4 declared frames (32 requested) the native write
reports 0 frames written, a non-negative count below the count requested,
and `Writei` returns normally instead of throwing. -/
theorem Writei_zero_written_returns_normally :
    0 < exampleData.frames ∧
    (scripted.respond [0] (Writei_call ⟨1⟩ exampleData)).1 = 0 ∧
    (0 : Int) < (ALSAPCMHandle.Writei_size exampleData : Int) ∧
    ((⟨1⟩ : ALSAPCMHandle).Writei scripted exampleData ⟨[0], []⟩).1 = .ok () ∧
    ¬ ∃ arg, ((⟨1⟩ : ALSAPCMHandle).Writei scripted exampleData ⟨[0], []⟩).1 =
      .error (.PCMWriteException arg) := by
  have h : ((⟨1⟩ : ALSAPCMHandle).Writei scripted exampleData ⟨[0], []⟩).1 = .ok () := by
    rw [(Writei_unfold scripted ⟨1⟩ exampleData ⟨[0], []⟩ 0 0 rfl rfl).1, toInt32_zero,
      if_neg (by decide), if_neg (by decide)]
  refine ⟨by decide, rfl, by decide, h, ?_⟩
  rw [h]
  rintro ⟨arg, harg⟩
  cases harg

/-- C3, amended: when the native write reports a positive count `r` (within
the `int` range) that is smaller than the declared `d.frames`, `Writei`
throws the "Did not write all frames" PCMWriteException; a report of 0
frames written is accepted and `Writei` returns normally. -/
theorem Writei_short_write_rejected {σ : Type} (A : ALSA σ) (self : ALSAPCMHandle)
    (d : PCMData) (w : World σ) (r : Int)
    (hr : (A.respond w.dev (Writei_call self d)).1 = r) :
    (0 < r → r < (d.frames : Int) → r < 2 ^ 31 →
      (self.Writei A d w).1 = .error (.PCMWriteException "Did not write all frames")) ∧
    (r = 0 → (self.Writei A d w).1 = .ok ()) := by
  constructor
  · intro hpos hlt hint
    have h32 : toInt32 r = r := toInt32_of_range r (by omega) hint
    have hu : toUInt32 r = r.toNat := toUInt32_of_range r (by omega) (by omega)
    rw [(Writei_unfold A self d w r _ hr rfl).1, h32, hu, if_neg (by omega),
      if_pos ⟨hpos, by omega⟩]
  · intro h0
    subst h0
    rw [(Writei_unfold A self d w 0 _ hr rfl).1, toInt32_zero, if_neg (by decide),
      if_neg (fun h => absurd h.1 (by decide))]

/-- Witness for C3, amended: of 4 declared frames the device reports 2. -/
theorem Writei_short_write_rejected_witness :
    ((⟨1⟩ : ALSAPCMHandle).Writei scripted exampleData ⟨[2], []⟩).1 =
      .error (.PCMWriteException "Did not write all frames") :=
  (Writei_short_write_rejected scripted ⟨1⟩ exampleData ⟨[2], []⟩ 2 rfl).1
    (by decide) (by decide) (by decide)

/-! ## The buffer of main -/

theorem main_fill_length (random : Nat → Nat) (bound : Nat) :
    ∀ (k i : Nat) (buf : List (Option Nat)), bound - i = k →
      (main_fill random bound i buf).length = buf.length := by
  intro k
  induction k with
  | zero =>
    intro i buf hk
    unfold main_fill
    rw [if_neg (by omega)]
  | succ k ih =>
    intro i buf hk
    unfold main_fill
    rw [if_pos (by omega), ih (i + 1) _ (by omega), List.length_set]

theorem main_fill_getElem? (random : Nat → Nat) (bound : Nat) :
    ∀ (k i : Nat) (buf : List (Option Nat)), bound - i = k → ∀ j, j < buf.length →
      (main_fill random bound i buf)[j]? =
        if i ≤ j ∧ j < bound then some (some (random j % 256)) else buf[j]? := by
  intro k
  induction k with
  | zero =>
    intro i buf hk j _
    unfold main_fill
    rw [if_neg (by omega), if_neg (by omega)]
  | succ k ih =>
    intro i buf hk j hj
    unfold main_fill
    rw [if_pos (by omega), ih (i + 1) _ (by omega) j (by rw [List.length_set]; exact hj),
      List.getElem?_set]
    by_cases hij : i = j
    · subst hij
      rw [if_neg (by omega), if_pos rfl, if_pos hj, if_pos ⟨le_refl _, by omega⟩]
    · rw [if_neg hij]
      by_cases hlt : i + 1 ≤ j ∧ j < bound
      · rw [if_pos hlt, if_pos ⟨by omega, hlt.2⟩]
      · rw [if_neg hlt, if_neg (by omega)]

/-- C10: for `n > 0` frames with `16 n < 2^32` in an 8-bit format and a
buffer of `n × 8` bytes as main allocates it, the bytes the native write is
asked to read stay within the allocation exactly for mono, where they equal
it; for stereo they are four times the allocation.  For main (`n = 22050`)
the allocation is 176400 bytes and the fill loop sets every one of them. -/
theorem Writei_bytes_within_allocation (n : Nat) (sign : PCMSign) (ch : PCMChannelFormat)
    (rate : PCMSampleRate) (buf : List (Option Nat)) (random : Nat → Nat)
    (hn : 0 < n) (h16 : n * 16 < 2 ^ 32) :
    main_size n ⟨sign, .SS_LOW, ch, rate⟩ = n * 8 ∧
    (∃ bytes, Writei_bytes ⟨⟨sign, .SS_LOW, ch, rate⟩, n, buf⟩ = some bytes ∧
      (bytes ≤ main_size n ⟨sign, .SS_LOW, ch, rate⟩ ↔ ch = .MONO) ∧
      (ch = .MONO → bytes = main_size n ⟨sign, .SS_LOW, ch, rate⟩) ∧
      (ch = .STEREO → bytes = 4 * main_size n ⟨sign, .SS_LOW, ch, rate⟩)) ∧
    (main_data random).format = main_format ∧
    (main_data random).frames = 22050 ∧
    main_size 22050 main_format = 176400 ∧
    Writei_bytes (main_data random) = some 176400 ∧
    (main_data random).pcm_data.length = 176400 ∧
    (∀ i, i < 176400 → (main_data random).pcm_data[i]? = some (some (random i % 256))) := by
  have hsize : main_size n ⟨sign, .SS_LOW, ch, rate⟩ = n * 8 := by
    simp only [main_size, PCMSampleSize.val]
    exact Nat.mod_eq_of_lt (by omega)
  have hmain : main_size 22050 main_format = 176400 := by decide
  have hlen : (main_data random).pcm_data.length = 176400 := by
    simp only [main_data]
    rw [main_fill_length random _ _ 0 _ rfl, hmain, List.length_replicate]
  have hbytes : Writei_bytes (main_data random) = some 176400 := by
    simp only [Writei_bytes, snd_pcm_frames_to_bytes, ALSAPCMHandle.Writei_size, main_data,
      main_format, ALSAInterop.GetALSAFormat, snd_pcm_format_size, PCMSampleSize.val,
      PCMChannelFormat.val, if_true, Option.map_some']
    decide
  refine ⟨hsize, ?_, rfl, rfl, hmain, hbytes, hlen, ?_⟩
  · rw [hsize]
    cases sign <;> cases ch
    all_goals
      simp only [Writei_bytes, snd_pcm_frames_to_bytes, ALSAInterop.GetALSAFormat,
        snd_pcm_format_size, ALSAPCMHandle.Writei_size, PCMSampleSize.val,
        PCMChannelFormat.val, Option.map_some', if_true, Option.some.injEq, exists_eq_left',
        reduceCtorEq, if_false]
      refine ⟨?_, ?_, ?_⟩
      · simp
        omega
      · simp
        try omega
      · simp
        try omega
  · intro i hi
    simp only [main_data]
    rw [main_fill_getElem? random _ _ 0 _ rfl i (by
      rw [hmain, List.length_replicate]; exact hi), hmain, if_pos ⟨Nat.zero_le _, hi⟩]

/-- Witness for C10: one stereo frame, 8 bytes allocated, 32 bytes read. -/
theorem Writei_bytes_within_allocation_witness :
    main_size 1 ⟨.SIGNED, .SS_LOW, .STEREO, .SR_HIGH⟩ = 1 * 8 ∧
    Writei_bytes ⟨⟨.SIGNED, .SS_LOW, .STEREO, .SR_HIGH⟩, 1, List.replicate 8 none⟩ =
      some 32 :=
  ⟨(Writei_bytes_within_allocation 1 .SIGNED .STEREO .SR_HIGH (List.replicate 8 none)
    (fun _ => 0) (by decide) (by decide)).1, by decide⟩

/-! ## Runs of main -/

theorem construct_unfold {σ : Type} (A : ALSA σ) (s : σ) :
    ALSAPCMHandle.construct A ⟨s, []⟩ =
      (if (A.respond s main_open_call).1 < 0 then
          .error (.PCMOpenException "Playback open error")
        else .ok (main_handle A s),
        ⟨(A.respond s main_open_call).2, [main_open_call]⟩) := by
  unfold ALSAPCMHandle.construct
  simp only [ALSA.call, main_open_call, main_handle, List.nil_append]
  split_ifs <;> rfl

theorem SetParams_unfold {σ : Type} (A : ALSA σ) (self : ALSAPCMHandle) (format : PCMFormat)
    (w : World σ) :
    (0 ≤ (A.respond w.dev (SetParams_call self format)).1 →
      self.SetParams A format w =
        (.ok (), ⟨(A.respond w.dev (SetParams_call self format)).2,
          w.trace ++ [SetParams_call self format]⟩)) ∧
    ((A.respond w.dev (SetParams_call self format)).1 < 0 →
      ∃ e dev, self.SetParams A format w =
        (.error e, ⟨dev, w.trace ++ [SetParams_call self format,
          .snd_strerror (A.respond w.dev (SetParams_call self format)).1]⟩)) := by
  constructor
  · intro h
    unfold ALSAPCMHandle.SetParams
    simp only [ALSA.call, SetParams_call] at h ⊢
    rw [if_neg (not_lt.mpr h)]
  · intro h
    unfold ALSAPCMHandle.SetParams
    simp only [ALSA.call, ALSA.snd_strerror, SetParams_call] at h ⊢
    rw [if_pos h, List.append_assoc]
    exact ⟨_, _, rfl⟩

/-- The calls of one `Writei`: the write first, then no further write and
no close. -/
theorem Writei_calls {σ : Type} (A : ALSA σ) (self : ALSAPCMHandle) (d : PCMData)
    (w : World σ) :
    ∃ post, (self.Writei A d w).2.trace = w.trace ++ Writei_call self d :: post ∧
      post.countP NativeCall.isWritei = 0 ∧ post.countP NativeCall.isClose = 0 := by
  rw [(Writei_unfold A self d w _ _ rfl rfl).2]
  split_ifs
  · exact ⟨[Writei_recover_call self _, .snd_strerror _], rfl, rfl, rfl⟩
  · exact ⟨[Writei_recover_call self _], rfl, rfl, rfl⟩
  · exact ⟨[], rfl, rfl, rfl⟩

/-- The trace of the part of main that runs in the scope of `handle`: the
calls of `SetParams` and `Writei`, none of them a close, followed by the
close of the destructor when main returns or the stack is unwound. -/
theorem main_body_trace {σ : Type} (A : ALSA σ) (unwinds : Bool) (random : Nat → Nat)
    (handle : ALSAPCMHandle) (w1 : World σ) :
    ∃ calls, calls.countP NativeCall.isClose = 0 ∧
      (main_body A unwinds random handle w1).2.trace =
        w1.trace ++ calls ++
          (if (main_body A unwinds random handle w1).1 = .returned 0 ∨ unwinds = true then
            [.snd_pcm_close handle.native_handle] else []) := by
  unfold main_body
  by_cases hsp : (A.respond w1.dev (SetParams_call handle main_format)).1 < 0
  · obtain ⟨e, dev, he⟩ := (SetParams_unfold A handle main_format w1).2 hsp
    rw [he]
    refine ⟨[SetParams_call handle main_format,
      .snd_strerror (A.respond w1.dev (SetParams_call handle main_format)).1], rfl, ?_⟩
    cases unwinds <;>
      simp [main_uncaught, ALSAPCMHandle.destructor, ALSA.call]
  · rw [(SetParams_unfold A handle main_format w1).1 (not_lt.mp hsp)]
    obtain ⟨post, hpost, _, hclose⟩ := Writei_calls A handle (main_data random)
      ⟨(A.respond w1.dev (SetParams_call handle main_format)).2,
        w1.trace ++ [SetParams_call handle main_format]⟩
    refine ⟨SetParams_call handle main_format :: Writei_call handle (main_data random) :: post,
      ?_, ?_⟩
    · simpa [List.countP_cons, SetParams_call, Writei_call, NativeCall.isClose] using hclose
    · dsimp only
      generalize handle.Writei A (main_data random)
        ⟨(A.respond w1.dev (SetParams_call handle main_format)).2,
          w1.trace ++ [SetParams_call handle main_format]⟩ = out at hpost ⊢
      obtain ⟨res, w3⟩ := out
      simp only at hpost
      cases res with
      | error e =>
        cases unwinds <;>
          simp [main_uncaught, ALSAPCMHandle.destructor, ALSA.call, hpost]
      | ok u =>
        simp [ALSAPCMHandle.destructor, ALSA.call, hpost]

theorem main_open_failed {σ : Type} (A : ALSA σ) (unwinds : Bool) (random : Nat → Nat) (s : σ)
    (h : (A.respond s main_open_call).1 < 0) :
    main A unwinds random s =
      (.terminated (.PCMOpenException "Playback open error"),
        ⟨(A.respond s main_open_call).2, [main_open_call]⟩) := by
  unfold main
  rw [construct_unfold, if_pos h]

theorem main_open_ok {σ : Type} (A : ALSA σ) (unwinds : Bool) (random : Nat → Nat) (s : σ)
    (h : 0 ≤ (A.respond s main_open_call).1) :
    main A unwinds random s =
      main_body A unwinds random (main_handle A s)
        ⟨(A.respond s main_open_call).2, [main_open_call]⟩ := by
  unfold main
  rw [construct_unfold, if_neg (not_lt.mpr h)]

theorem main_Writei_size (random : Nat → Nat) :
    ALSAPCMHandle.Writei_size (main_data random) = 176400 := by
  simp only [ALSAPCMHandle.Writei_size, main_data, main_format, PCMSampleSize.val,
    PCMChannelFormat.val]
  decide

/-- C5: in every run of main in which the open and the configuration
succeed, the configuration asks for U8 with 1 channel at 11025 Hz, and the
one native write is asked for 176400 frames (22050 × 8 × 1), not for the
22050 frames the buffer declares. -/
theorem main_requests_176400_frames {σ : Type} (A : ALSA σ) (unwinds : Bool)
    (random : Nat → Nat) (s : σ)
    (hopen : 0 ≤ (A.respond s main_open_call).1)
    (hcfg : 0 ≤ (A.respond (A.respond s main_open_call).2
      (SetParams_call (main_handle A s) main_format)).1) :
    ∃ post, (main A unwinds random s).2.trace =
        [main_open_call,
          .snd_pcm_set_params (main_handle A s).native_handle .SND_PCM_FORMAT_U8
            .SND_PCM_ACCESS_RW_INTERLEAVED 1 11025 1 500000,
          .snd_pcm_writei (main_handle A s).native_handle (main_data random).pcm_data 176400]
          ++ post ∧
      post.countP NativeCall.isWritei = 0 ∧
      (main_data random).frames = 22050 := by
  suffices h : ∃ post, (main A unwinds random s).2.trace =
        [main_open_call,
          .snd_pcm_set_params (main_handle A s).native_handle .SND_PCM_FORMAT_U8
            .SND_PCM_ACCESS_RW_INTERLEAVED 1 11025 1 500000,
          .snd_pcm_writei (main_handle A s).native_handle (main_data random).pcm_data 176400]
          ++ post ∧
      post.countP NativeCall.isWritei = 0 from h.imp (fun _ h => ⟨h.1, h.2, rfl⟩)
  rw [main_open_ok A unwinds random s hopen]
  unfold main_body
  rw [(SetParams_unfold A (main_handle A s) main_format _).1 hcfg]
  dsimp only
  obtain ⟨post, hpost, hw, _⟩ := Writei_calls A (main_handle A s) (main_data random)
    ⟨(A.respond (A.respond s main_open_call).2
        (SetParams_call (main_handle A s) main_format)).2,
      [main_open_call] ++ [SetParams_call (main_handle A s) main_format]⟩
  have hcall : Writei_call (main_handle A s) (main_data random) =
      .snd_pcm_writei (main_handle A s).native_handle (main_data random).pcm_data 176400 := by
    rw [Writei_call, main_Writei_size]
  rw [hcall] at hpost
  generalize (main_handle A s).Writei A (main_data random)
    ⟨(A.respond (A.respond s main_open_call).2
        (SetParams_call (main_handle A s) main_format)).2,
      [main_open_call] ++ [SetParams_call (main_handle A s) main_format]⟩ = out at hpost ⊢
  obtain ⟨res, w3⟩ := out
  simp only at hpost
  have hsp : SetParams_call (main_handle A s) main_format =
      .snd_pcm_set_params (main_handle A s).native_handle .SND_PCM_FORMAT_U8
        .SND_PCM_ACCESS_RW_INTERLEAVED 1 11025 1 500000 := rfl
  rw [hsp] at hpost
  cases res with
  | error e =>
    cases unwinds
    · exact ⟨post, by simp [main_uncaught, hpost], hw⟩
    · refine ⟨post ++ [.snd_pcm_close (main_handle A s).native_handle], ?_, ?_⟩
      · simp [main_uncaught, ALSAPCMHandle.destructor, ALSA.call, hpost]
      · simp [List.countP_append, hw, NativeCall.isWritei]
  | ok u =>
    refine ⟨post ++ [.snd_pcm_close (main_handle A s).native_handle], ?_, ?_⟩
    · simp [ALSAPCMHandle.destructor, ALSA.call, hpost]
    · simp [List.countP_append, hw, NativeCall.isWritei]

/-- Witness for C5: a library that accepts the open, the configuration and
the whole write. -/
theorem main_requests_176400_frames_witness :
    ∃ post, (main scripted false (fun _ => 0) [0, 0, 176400]).2.trace =
        [main_open_call,
          .snd_pcm_set_params (main_handle scripted [0, 0, 176400]).native_handle
            .SND_PCM_FORMAT_U8 .SND_PCM_ACCESS_RW_INTERLEAVED 1 11025 1 500000,
          .snd_pcm_writei (main_handle scripted [0, 0, 176400]).native_handle
            (main_data (fun _ => 0)).pcm_data 176400] ++ post ∧
      post.countP NativeCall.isWritei = 0 ∧
      (main_data (fun _ => 0)).frames = 22050 :=
  main_requests_176400_frames scripted false (fun _ => 0) [0, 0, 176400]
    (by decide) (by decide)

/-- C6, counterexample: the open succeeds, the configuration is rejected,
the exception leaves main uncaught and the stack is not unwound: the run
ends without any close call. -/
theorem main_uncaught_failure_never_closes :
    0 ≤ (scripted.respond [0, -22] main_open_call).1 ∧
    (main scripted false (fun _ => 0) [0, -22]).1 =
      .terminated (.PCMFormatException "Invalid argument") ∧
    (main scripted false (fun _ => 0) [0, -22]).2.trace =
      [.snd_pcm_open "default" .SND_PCM_STREAM_PLAYBACK 0,
        .snd_pcm_set_params 1 .SND_PCM_FORMAT_U8 .SND_PCM_ACCESS_RW_INTERLEAVED
          1 11025 1 500000,
        .snd_strerror (-22)] ∧
    (main scripted false (fun _ => 0) [0, -22]).2.trace.countP NativeCall.isClose = 0 := by
  refine ⟨by decide, rfl, rfl, rfl⟩

/-- The result of the part of main in the scope of `handle`, by the results
of `SetParams` and of `Writei`. -/
theorem main_body_result {σ : Type} (A : ALSA σ) (unwinds : Bool) (random : Nat → Nat)
    (handle : ALSAPCMHandle) (w1 : World σ) :
    (((handle.SetParams A main_format w1).1 = .ok () ∧
        (handle.Writei A (main_data random) (handle.SetParams A main_format w1).2).1 =
          .ok ()) →
      (main_body A unwinds random handle w1).1 = .returned 0) ∧
    (¬ ((handle.SetParams A main_format w1).1 = .ok () ∧
        (handle.Writei A (main_data random) (handle.SetParams A main_format w1).2).1 =
          .ok ()) →
      ∃ e, (main_body A unwinds random handle w1).1 = .terminated e) := by
  unfold main_body
  generalize handle.SetParams A main_format w1 = sp
  obtain ⟨res, w2⟩ := sp
  cases res with
  | error e =>
    refine ⟨fun h => ?_, fun _ => ⟨e, rfl⟩⟩
    cases h.1
  | ok u =>
    dsimp only
    generalize handle.Writei A (main_data random) w2 = wr
    obtain ⟨res2, w3⟩ := wr
    cases res2 with
    | error e =>
      refine ⟨fun h => ?_, fun _ => ⟨e, rfl⟩⟩
      cases h.2
    | ok u2 =>
      exact ⟨fun _ => rfl, fun h => absurd ⟨rfl, rfl⟩ h⟩

/-- C6, amended: when the open fails, close is never called.  When the open
succeeds and both `SetParams` and `Writei` return normally, main returns 0;
otherwise an exception leaves main.  When both return normally, or an
exception leaves main and the stack is unwound, close is called exactly
once, on the handle the native open stored, as the last native call of the
run; when an exception leaves main and the stack is not unwound, close is
not called. -/
theorem main_closes_opened_handle {σ : Type} (A : ALSA σ) (unwinds : Bool)
    (random : Nat → Nat) (s : σ) :
    ((A.respond s main_open_call).1 < 0 →
      (main A unwinds random s).2.trace.countP NativeCall.isClose = 0) ∧
    (0 ≤ (A.respond s main_open_call).1 →
      (((main_handle A s).SetParams A main_format (main_world A s)).1 = .ok () ∧
        ((main_handle A s).Writei A (main_data random)
          ((main_handle A s).SetParams A main_format (main_world A s)).2).1 = .ok ()) ∨
        unwinds = true →
      (main A unwinds random s).2.trace.filter NativeCall.isClose =
          [.snd_pcm_close (A.opened (A.respond s main_open_call).2)] ∧
        (main A unwinds random s).2.trace.getLast? =
          some (.snd_pcm_close (A.opened (A.respond s main_open_call).2))) ∧
    (0 ≤ (A.respond s main_open_call).1 →
      (((main_handle A s).SetParams A main_format (main_world A s)).1 = .ok () ∧
        ((main_handle A s).Writei A (main_data random)
          ((main_handle A s).SetParams A main_format (main_world A s)).2).1 = .ok ()) →
      (main A unwinds random s).1 = .returned 0) ∧
    (0 ≤ (A.respond s main_open_call).1 →
      ¬ (((main_handle A s).SetParams A main_format (main_world A s)).1 = .ok () ∧
        ((main_handle A s).Writei A (main_data random)
          ((main_handle A s).SetParams A main_format (main_world A s)).2).1 = .ok ()) →
      (∃ e, (main A unwinds random s).1 = .terminated e) ∧
        (unwinds = false →
          (main A unwinds random s).2.trace.countP NativeCall.isClose = 0)) := by
  have hbody := main_body_result A unwinds random (main_handle A s) (main_world A s)
  obtain ⟨calls, hclose, htr⟩ := main_body_trace A unwinds random (main_handle A s)
    (main_world A s)
  refine ⟨?_, ?_, ?_, ?_⟩
  · intro h
    rw [main_open_failed A unwinds random s h]
    rfl
  · intro h hc
    have hc2 : (main_body A unwinds random (main_handle A s) (main_world A s)).1 =
        .returned 0 ∨ unwinds = true := hc.imp hbody.1 id
    rw [main_open_ok A unwinds random s h]
    change (main_body A unwinds random (main_handle A s) (main_world A s)).2.trace.filter
        NativeCall.isClose = _ ∧
      (main_body A unwinds random (main_handle A s) (main_world A s)).2.trace.getLast? = _
    rw [htr, if_pos hc2]
    have hnil : calls.filter NativeCall.isClose = [] := by
      rw [List.filter_eq_nil_iff]
      intro a ha
      have := List.countP_eq_zero.mp hclose a ha
      simpa using this
    constructor
    · simp [List.filter_append, hnil, main_world, main_open_call, main_handle,
        NativeCall.isClose]
    · rw [List.getLast?_concat]
      rfl
  · intro h hc
    rw [main_open_ok A unwinds random s h]
    exact hbody.1 hc
  · intro h hc
    rw [main_open_ok A unwinds random s h]
    obtain ⟨e, he⟩ := hbody.2 hc
    refine ⟨⟨e, he⟩, fun hu => ?_⟩
    change (main_body A unwinds random (main_handle A s) (main_world A s)).2.trace.countP
      NativeCall.isClose = 0
    have hc2 : ¬ ((main_body A unwinds random (main_handle A s) (main_world A s)).1 =
        .returned 0 ∨ unwinds = true) := by
      rw [he, hu]
      simp
    rw [htr, if_neg hc2]
    simp [List.countP_append, hclose, main_world, main_open_call, NativeCall.isClose]

/-- Witness for C6, amended: a run in which `SetParams` and `Writei` return
normally, without unwinding, and a run whose configuration is rejected, with
unwinding; the close of the opened handle ends both. -/
theorem main_closes_opened_handle_witness :
    (main scripted false (fun _ => 0) [0, 0, 176400]).2.trace.getLast? =
      some (.snd_pcm_close (scripted.opened (scripted.respond [0, 0, 176400]
        main_open_call).2)) ∧
    (main scripted true (fun _ => 0) [0, -22]).2.trace.getLast? =
      some (.snd_pcm_close (scripted.opened (scripted.respond [0, -22]
        main_open_call).2)) :=
  ⟨((main_closes_opened_handle scripted false (fun _ => 0) [0, 0, 176400]).2.1
      (by decide) (Or.inl ⟨rfl, rfl⟩)).2,
    ((main_closes_opened_handle scripted true (fun _ => 0) [0, -22]).2.1
      (by decide) (Or.inr rfl)).2⟩

end Synth
